import Mathlib

/-!
Shallow embedding of `src/robothub/frame_buffer.py` (class `FrameBuffer`)
and verification of the specification's claims about it.

Modelling conventions:
* A depthai packet is modelled by `Packet`: `msg.getTimestamp()` becomes the
  rational `timestamp` (seconds, as `datetime.timedelta` values compare
  exactly), and the opaque payload becomes a natural-number tag.
* `collections.deque(maxlen=...)` is a Lean list (front = oldest element)
  together with the optional bound; `deque.append` is `dequeAppend`.
* Python exceptions become the `PyErr` sum; functions that can raise return
  `Except PyErr _` or report the error in their outcome.
* `self.temporary_queues` is a `set()` of queue objects; the claims about it
  only concern which queues are registered, so it is modelled by the number
  of registered queues.  The packets a temporary queue receives while
  `save_video` waits on it are supplied as the explicit `arrivals` list (the
  sequentialisation of the producer thread feeding `default_callback`).
* The filesystem is the finite map `FS` from structured paths to contents;
  `tempfile.TemporaryDirectory` supplies a fresh directory name `dir_path`
  and deletes every file under it when the `with` block exits;
  `uuid.uuid4()` supplies the fresh `name`.
-/

/-- One buffered packet: timestamp in seconds (from `msg.getTimestamp()`,
a `datetime.timedelta`) plus an opaque payload tag. -/
structure Packet where
  timestamp : ℚ
  payload : ℕ
deriving DecidableEq, Repr

/-- Python exceptions that `FrameBuffer` code can raise. -/
inductive PyErr where
  /-- `ImportError` raised when the `av` library is missing (lines 81-83). -/
  | importError : PyErr
  /-- `ValueError` with the given message. -/
  | valueError (msg : String) : PyErr
  /-- `TypeError` from comparing `int` with `None` (line 87 when `maxlen is None`). -/
  | typeError : PyErr
  /-- `IndexError` from `video_frames_before[-1]` on an empty list (line 95). -/
  | indexError : PyErr
deriving DecidableEq, Repr

/-- Message of the `ValueError` raised on negative seconds (line 86). -/
def invalidSecondsMsg : String :=
  "`before_seconds` and `after_seconds` must be positive."

/-- Message of the `ValueError` raised when the requested history exceeds
the buffer capacity (line 88). -/
def insufficientHistoryMsg : String :=
  "`before_seconds` is too large. The buffer does not contain enough frames."

/-- Message of the `ValueError` raised by `itertools.islice` on a negative index. -/
def isliceMsg : String :=
  "Indices for islice() must be None or an integer: 0 <= x <= sys.maxsize."

/-- State of a `FrameBuffer` object: the deque (front = oldest) with its
optional bound, and the number of registered temporary queues. -/
structure FrameBuffer where
  maxlen : Option ℕ
  buffer : List Packet
  temporary_queues : ℕ
deriving DecidableEq, Repr

/-- `deque.append` with an optional `maxlen`: appends on the right and, when
the bound is reached, evicts from the left so that at most `maxlen` elements
remain. -/
def dequeAppend (maxlen : Option ℕ) (buffer : List Packet) (p : Packet) : List Packet :=
  match maxlen with
  | none => buffer ++ [p]
  | some m => (buffer ++ [p]).drop (buffer.length + 1 - m)

/-- `FrameBuffer.default_callback` (lines 148-154): appends the packet to the
deque and delivers it to every registered temporary queue.  Delivery does not
change which queues are registered, so the registry count is unchanged; the
delivered packets reappear as the `arrivals` argument of `save_video`. -/
def default_callback (fb : FrameBuffer) (packet : Packet) : FrameBuffer :=
  { fb with buffer := dequeAppend fb.maxlen fb.buffer packet }

/-- `FrameBuffer.get_slice` (lines 33-41):
`list(itertools.islice(self.buffer, int(start), end))`.  `islice` raises
`ValueError` on a negative `start` or `stop`; otherwise it yields the
elements of `buffer[start:stop]` (all elements from `start` when `stop`
is `None`), and an out-of-range nonnegative `start` yields the empty list. -/
def get_slice (buffer : List Packet) (start : ℤ) (stop : Option ℤ) :
    Except PyErr (List Packet) :=
  if start < 0 then .error (.valueError isliceMsg)
  else
    match stop with
    | none => .ok (buffer.drop start.toNat)
    | some e =>
        if e < 0 then .error (.valueError isliceMsg)
        else .ok ((buffer.drop start.toNat).take (e.toNat - start.toNat))

/-- The `while True` collection loop of `save_video` (lines 98-107).
`arrivals` is the sequence of packets the producer puts into the temporary
queue; a `queue.get` timeout (`Empty`) just retries, so once `arrivals` is
exhausted the loop waits forever — modelled by `none`.  A received packet is
appended to the accumulator when its timestamp is strictly greater than
`latest_t_before`, and the loop breaks (returning the accumulated list) when
`timestamp - latest_t_before > after_seconds`.  `.ok acc` is a normal loop
exit with the collected list; `.error acc` reports indefinite blocking with
the list collected up to that point. -/
def collectAfter (latest_t_before : ℚ) (after_seconds : ℤ) :
    List Packet → List Packet → Except (List Packet) (List Packet)
  | [], acc => .error acc
  | p :: rest, acc =>
      let acc' := if latest_t_before < p.timestamp then acc ++ [p] else acc
      if (after_seconds : ℚ) < p.timestamp - latest_t_before then .ok acc'
      else collectAfter latest_t_before after_seconds rest acc'

/-- A structured filesystem path: directory plus file name. -/
structure FPath where
  dir : String
  file : String
deriving DecidableEq, Repr

/-- Result value of `save_video` / `_mux_video`: either the string of a path
(`return_bytes=False`) or the artifact's bytes (`return_bytes=True`). -/
inductive VideoRes where
  | path (p : FPath) : VideoRes
  | bytes (b : List ℕ) : VideoRes
deriving DecidableEq, Repr

/-- Filesystem state: the files currently existing, with their contents. -/
structure FS where
  files : List (FPath × List ℕ)
deriving DecidableEq, Repr

/-- Whether a file currently exists at `p`. -/
def fileExists (fs : FS) (p : FPath) : Bool :=
  fs.files.any (fun f => f.1 = p)

/-- Deleting a directory removes every file under it (the cleanup performed
by `tempfile.TemporaryDirectory.__exit__`). -/
def removeDirTree (fs : FS) (d : String) : FS :=
  ⟨fs.files.filter (fun f => f.1.dir ≠ d)⟩

/-- Modelled from the spec: the external `depthai_sdk` `AvWriter` encoder
(not part of this repository).  The spec leaves the bitstream format opaque
("does not define the internal bitstream format produced by the encoding
library"); the model only retains that the artifact is a deterministic
function of the written packets and the stream geometry. -/
def avWriterEncode (packets : List Packet) (fps frame_width frame_height : ℤ) :
    List ℕ :=
  fps.natAbs :: frame_width.natAbs :: frame_height.natAbs :: packets.map Packet.payload

/-- `FrameBuffer._mux_video` (lines 119-146): inside
`with tempfile.TemporaryDirectory() as dir_path`, an `AvWriter` writes all
packets to `dir_path/name` and the artifact appears at
`Path(dir_path, name).with_suffix('.mp4')`; leaving the `with` block deletes
everything under `dir_path`.  Returns `str(video_path)` when
`return_bytes` is false, else the artifact's bytes (read before cleanup). -/
def mux_video (fs : FS) (dir_path name : String) (packets : List Packet)
    (fps frame_width frame_height : ℤ) (return_bytes : Bool) :
    VideoRes × FS :=
  let video_path : FPath := ⟨dir_path, name ++ ".mp4"⟩
  let content := avWriterEncode packets fps frame_width frame_height
  let fsInside : FS := ⟨fs.files ++ [(video_path, content)]⟩
  let res := if return_bytes then VideoRes.bytes content else VideoRes.path video_path
  (res, removeDirTree fsInside dir_path)

/-- Outcome of a `save_video` call. -/
inductive SaveOutcome where
  /-- The call returned `video_res`; `muxed` records the packet list
  `video_frames_before + video_frames_after` handed to `_mux_video`
  (line 110). -/
  | ok (video_res : VideoRes) (muxed : List Packet) : SaveOutcome
  /-- The call raised the given exception. -/
  | err (e : PyErr) : SaveOutcome
  /-- The collection loop exhausted all arriving packets without its break
  condition firing: the call blocks indefinitely.  `collected` is the
  `video_frames_after` list accumulated so far. -/
  | blocked (collected : List Packet) : SaveOutcome
deriving DecidableEq, Repr

/-- `FrameBuffer.save_video` (lines 61-117).  `av_installed` models whether
the `av` import succeeded; `arrivals` the packets put into the temporary
queue while the loop runs; `dir_path` and `name` the fresh temporary
directory and `uuid4` name used by `_mux_video`.  Returns the outcome, the
final `FrameBuffer` state (registry count; the deque is only read), and the
final filesystem.  On an exception the state is the one at the raise point:
in particular the `IndexError` of line 95 fires after the temporary queue
was added (line 94) and before any removal, so that queue stays registered. -/
def save_video (av_installed : Bool) (fb : FrameBuffer)
    (before_seconds after_seconds fps frame_width frame_height : ℤ)
    (return_bytes : Bool) (arrivals : List Packet)
    (fs : FS) (dir_path name : String) :
    SaveOutcome × FrameBuffer × FS :=
  if av_installed = false then (.err .importError, fb, fs)
  else if before_seconds < 0 ∨ after_seconds < 0 then
    (.err (.valueError invalidSecondsMsg), fb, fs)
  else
    match fb.maxlen with
    | none => (.err .typeError, fb, fs)
    | some m =>
        if (m : ℤ) < before_seconds * fps then
          (.err (.valueError insufficientHistoryMsg), fb, fs)
        else
          match get_slice fb.buffer ((m : ℤ) - before_seconds * fps) none with
          | .error e => (.err e, fb, fs)
          | .ok video_frames_before =>
              let fb1 := { fb with temporary_queues := fb.temporary_queues + 1 }
              match video_frames_before.getLast? with
              | none => (.err .indexError, fb1, fs)
              | some lastp =>
                  match collectAfter lastp.timestamp after_seconds arrivals [] with
                  | .error collected => (.blocked collected, fb1, fs)
                  | .ok video_frames_after =>
                      let fb2 := { fb1 with
                        temporary_queues := fb1.temporary_queues - 1 }
                      let packets := video_frames_before ++ video_frames_after
                      let (res, fs') := mux_video fs dir_path name packets
                        fps frame_width frame_height return_bytes
                      (.ok res packets, fb2, fs')

/-- `FrameBuffer.process_video_event` (lines 43-59): calls `save_video` with
`return_bytes=False` and hands the result, together with `title`, to the
external `send_video_event`.  The first component records the `(value,
title)` pair given to `send_video_event`, or `none` when `save_video` did
not return normally. -/
def process_video_event (av_installed : Bool) (fb : FrameBuffer)
    (before_seconds after_seconds : ℤ) (title : String)
    (fps frame_width frame_height : ℤ) (arrivals : List Packet)
    (fs : FS) (dir_path name : String) :
    Option (VideoRes × String) × SaveOutcome × FrameBuffer × FS :=
  let r := save_video av_installed fb before_seconds after_seconds fps
    frame_width frame_height false arrivals fs dir_path name
  match r.1 with
  | .ok res _ => (some (res, title), r)
  | _ => (none, r)

/-- Ingesting a sequence of packets one by one through `default_callback`. -/
def ingestAll (fb : FrameBuffer) (ps : List Packet) : FrameBuffer :=
  ps.foldl default_callback fb

/-- Packet of the spec's example: timestamp `k` in units of 1/30 s. -/
def examplePacket (k : ℕ) : Packet := ⟨mkRat k 30, k⟩

/-- The example buffer state: capacity 300, holding the 300 packets with
timestamps 0..299 (in units of 1/30 s), no temporary queue registered. -/
def exampleState : FrameBuffer :=
  ⟨some 300, (List.range 300).map examplePacket, 0⟩

section ConcreteEvaluations

attribute [local semireducible] Rat.sub

set_option maxRecDepth 100000

/-- The example buffer state is exactly what ingesting the 300 example
packets into a fresh capacity-300 `FrameBuffer` produces. -/
theorem exampleState_from_ingestion :
    ingestAll ⟨some 300, [], 0⟩ ((List.range 300).map examplePacket) = exampleState := by
  decide

/-- C1 — counterexample.  In the spec's example scenario (capacity 300,
buffer holding frames with timestamps 0..299 in units of 1/30 s, trigger
with `before_seconds=5, after_seconds=2, fps=30`), after exactly 60 further
frames with timestamps 300..359 the collection loop of `save_video` has
gathered those 60 frames but its break condition has not fired (the last
frame satisfies `359/30 - 299/30 = 2`, which is not strictly greater than
`after_seconds = 2`), so the call is still blocked in the `while` loop and
no frames at all have been passed to the muxing step — not 210 as claimed. -/
theorem c1_sixty_after_frames_leave_save_video_blocked :
    (save_video true exampleState 5 2 30 1920 1080 false
        ((List.range 60).map (fun k => examplePacket (300 + k)))
        ⟨[]⟩ "tmpdir" "vid").1 =
      SaveOutcome.blocked ((List.range 60).map (fun k => examplePacket (300 + k))) := by
  decide

/-- C1 — amended claim.  In the same scenario the extraction completes only
once a frame with timestamp strictly beyond `299/30 + 2` arrives; with one
further frame of timestamp 360 (in 1/30 s units) the loop breaks, that frame
is also appended to the "after" collection, and the muxing step receives the
150 "before" frames (timestamps 150..299) followed by 61 "after" frames
(timestamps in (299, 360]) — 211 frames in total. -/
theorem c1_sixty_one_after_frames_mux_211 :
    (save_video true exampleState 5 2 30 1920 1080 false
        ((List.range 61).map (fun k => examplePacket (300 + k)))
        ⟨[]⟩ "tmpdir" "vid").1 =
      SaveOutcome.ok (VideoRes.path ⟨"tmpdir", "vid.mp4"⟩)
        ((List.range 211).map (fun k => examplePacket (150 + k))) ∧
    ((List.range 211).map (fun k => examplePacket (150 + k))).length = 211 := by
  constructor
  · decide
  · decide

end ConcreteEvaluations

/-- C2 — the code contradicts the claim (code bug): with `maxlen = 2` and an
empty buffer, `save_video(before_seconds=0, after_seconds=0, fps=30, ...)`
passes validation, computes an empty "before" slice, registers a fresh
temporary queue, and then raises `IndexError` from
`video_frames_before[-1]` — not a descriptive insufficient-history error —
leaving the leaked queue in the registry: the registry count went from 0
to 1 even though the call failed. -/
theorem c2_empty_before_slice_raises_index_error_and_leaks_queue :
    save_video true ⟨some 2, [], 0⟩ 0 0 30 1920 1080 false [] ⟨[]⟩ "tmpdir" "vid" =
      (SaveOutcome.err PyErr.indexError, ⟨some 2, [], 1⟩, ⟨[]⟩) := by
  decide

/-- C3 — counterexample.  On an unbounded buffer (`maxlen = None`) that
holds one frame, a fully valid call (`before_seconds = 0`,
`after_seconds = 0`) fails with a `TypeError` from the ordinary comparison
`before_seconds * fps > None`: the capacity-dependent validation is neither
skipped nor special-cased into a descriptive error for the unbounded
configuration. -/
theorem c3_unbounded_comparison_raises_type_error :
    save_video true ⟨none, [⟨0, 0⟩], 0⟩ 0 0 30 1920 1080 false [] ⟨[]⟩ "tmpdir" "vid" =
      (SaveOutcome.err PyErr.typeError, ⟨none, [⟨0, 0⟩], 0⟩, ⟨[]⟩) ∧
    PyErr.typeError ≠ PyErr.valueError insufficientHistoryMsg := by
  constructor
  · decide
  · decide

/-- C3 — amended claim.  When the `FrameBuffer` is unbounded
(`maxlen = None`), every `save_video` call with the `av` library installed
and nonnegative seconds fails with a `TypeError` raised by evaluating
`before_seconds * fps > None` as an ordinary comparison; the check is not
special-cased, and the failure happens before any subscription side effect
(state and filesystem are unchanged). -/
theorem c3_amended_unbounded_always_type_error (fb : FrameBuffer)
    (before_seconds after_seconds fps frame_width frame_height : ℤ)
    (return_bytes : Bool) (arrivals : List Packet) (fs : FS) (dir_path name : String)
    (hmax : fb.maxlen = none) (hb : 0 ≤ before_seconds) (ha : 0 ≤ after_seconds) :
    save_video true fb before_seconds after_seconds fps frame_width frame_height
        return_bytes arrivals fs dir_path name =
      (SaveOutcome.err PyErr.typeError, fb, fs) := by
  have h1 : ¬ (before_seconds < 0 ∨ after_seconds < 0) := by omega
  simp [save_video, hmax, h1]

/-- Witness for `c3_amended_unbounded_always_type_error` at a concrete
unbounded buffer and valid parameters. -/
theorem c3_amended_witness :
    (⟨none, [⟨0, 0⟩], 0⟩ : FrameBuffer).maxlen = none ∧
    save_video true ⟨none, [⟨0, 0⟩], 0⟩ 1 2 30 1920 1080 true [] ⟨[]⟩ "d" "v" =
      (SaveOutcome.err PyErr.typeError, ⟨none, [⟨0, 0⟩], 0⟩, ⟨[]⟩) :=
  ⟨rfl, c3_amended_unbounded_always_type_error ⟨none, [⟨0, 0⟩], 0⟩ 1 2 30 1920 1080
    true [] ⟨[]⟩ "d" "v" rfl (by decide) (by decide)⟩

/-- C4 — the code contradicts the claim (code bug): with `return_bytes =
False`, `_mux_video` returns `str(video_path)` where `video_path` lies
inside the `tempfile.TemporaryDirectory`; leaving the `with` block deletes
that directory, so the file at the returned path no longer exists when
`_mux_video` returns — the path is not durable.  (The temporary location is
indeed cleaned up, and the bytes variant does return the artifact's bytes:
here the final filesystem is empty again.) -/
theorem c4_returned_path_points_into_deleted_temp_dir :
    (mux_video ⟨[]⟩ "tmpdir" "vid" [⟨0, 0⟩] 30 1920 1080 false).1 =
      VideoRes.path ⟨"tmpdir", "vid.mp4"⟩ ∧
    fileExists (mux_video ⟨[]⟩ "tmpdir" "vid" [⟨0, 0⟩] 30 1920 1080 false).2
      ⟨"tmpdir", "vid.mp4"⟩ = false ∧
    (mux_video ⟨[]⟩ "tmpdir" "vid" [⟨0, 0⟩] 30 1920 1080 false).2 = ⟨[]⟩ := by
  refine ⟨by decide, by decide, by decide⟩

/-- C5 — counterexample.  Capacity 10, buffer warmed up with only 7 frames
(timestamps 0..6 in 1/30 s units), request `k = before_seconds * fps = 5`:
the "before" slice starts at index `capacity - k = 5` of the 7-element
deque, returning only the last 2 frames — not the most recent
`min k n = min 5 7 = 5` frames the claim promises. -/
theorem c5_warm_up_slice_shorter_than_min :
    get_slice ((List.range 7).map examplePacket) ((10 : ℤ) - 5) none =
      .ok [examplePacket 5, examplePacket 6] ∧
    [examplePacket 5, examplePacket 6] ≠
      ((List.range 7).map examplePacket).drop (7 - min 5 7) := by
  refine ⟨rfl, by decide⟩

/-- C5 — amended claim.  For a buffer of `n ≤ capacity` frames and a
validated request `k = before_seconds * fps ≤ capacity`, the "before" slice
is `buffer[capacity - k :]`: the most recent `n - (capacity - k)` frames in
buffer order (so possibly fewer than `min k n`, and empty whenever
`n ≤ capacity - k`); no error is raised.  It equals the most recent
`min k n` frames exactly when the buffer is full (`n = capacity`). -/
theorem c5_amended_before_slice_is_suffix (C k : ℕ) (buf : List Packet)
    (hk : k ≤ C) (hn : buf.length ≤ C) :
    get_slice buf ((C : ℤ) - (k : ℤ)) none = .ok (buf.drop (C - k)) ∧
    (buf.drop (C - k)).length = buf.length - (C - k) ∧
    (buf.length = C → buf.drop (C - k) = buf.drop (buf.length - min k buf.length)) := by
  have h0 : ¬ ((C : ℤ) - (k : ℤ) < 0) := by omega
  have h1 : ((C : ℤ) - (k : ℤ)).toNat = C - k := by omega
  refine ⟨?_, List.length_drop _ _, ?_⟩
  · simp [get_slice, h0, h1]
  · intro hfull
    have : buf.length - min k buf.length = C - k := by omega
    rw [this]

/-- Witness for `c5_amended_before_slice_is_suffix` at capacity 10, `k = 5`
and a 7-frame buffer. -/
theorem c5_amended_witness :
    5 ≤ 10 ∧ ((List.range 7).map examplePacket).length ≤ 10 ∧
    get_slice ((List.range 7).map examplePacket) ((10 : ℤ) - (5 : ℤ)) none =
      .ok (((List.range 7).map examplePacket).drop (10 - 5)) :=
  ⟨by decide, by decide,
    (c5_amended_before_slice_is_suffix 10 5 ((List.range 7).map examplePacket)
      (by decide) (by decide)).1⟩

/-- C7 — counterexample.  With finite capacity 1 and `before_seconds *
fps = 2 > 1`, the call `save_video(before_seconds=2, after_seconds=-1,
fps=1)` does not fail with the insufficient-history error: the negative
`after_seconds` is rejected first, so the error raised is the
invalid-parameter `ValueError` (the two messages differ).  No queue is
registered either way, but the error kind contradicts the claim. -/
theorem c7_negative_after_seconds_masks_insufficient_history :
    (1 : ℤ) < 2 * 1 ∧
    save_video true ⟨some 1, [⟨0, 0⟩], 0⟩ 2 (-1) 1 1920 1080 false [] ⟨[]⟩ "tmpdir" "vid" =
      (SaveOutcome.err (PyErr.valueError invalidSecondsMsg), ⟨some 1, [⟨0, 0⟩], 0⟩, ⟨[]⟩) ∧
    invalidSecondsMsg ≠ insufficientHistoryMsg := by
  refine ⟨by decide, by decide, by decide⟩

/-- C7 — amended claim.  For every `save_video` call with the `av` library
installed, nonnegative `before_seconds` and `after_seconds`, finite capacity
`m`, and `before_seconds * fps > m`, the call fails with the
insufficient-history `ValueError` and performs no subscription side effect:
the `FrameBuffer` state (including the temporary-queue registry) and the
filesystem are returned unchanged, so no queue created for this extraction
remains registered. -/
theorem c7_amended_insufficient_history_no_side_effect (fb : FrameBuffer) (m : ℕ)
    (before_seconds after_seconds fps frame_width frame_height : ℤ)
    (return_bytes : Bool) (arrivals : List Packet) (fs : FS) (dir_path name : String)
    (hmax : fb.maxlen = some m) (hb : 0 ≤ before_seconds) (ha : 0 ≤ after_seconds)
    (hcap : (m : ℤ) < before_seconds * fps) :
    save_video true fb before_seconds after_seconds fps frame_width frame_height
        return_bytes arrivals fs dir_path name =
      (SaveOutcome.err (PyErr.valueError insufficientHistoryMsg), fb, fs) := by
  have h1 : ¬ (before_seconds < 0 ∨ after_seconds < 0) := by omega
  simp [save_video, hmax, h1, hcap]

/-- Witness for `c7_amended_insufficient_history_no_side_effect`:
capacity 1, `before_seconds = 99`, `fps = 1`. -/
theorem c7_amended_witness :
    (⟨some 1, [⟨0, 0⟩], 0⟩ : FrameBuffer).maxlen = some 1 ∧ (0 : ℤ) ≤ 99 ∧ (0 : ℤ) ≤ 0 ∧
    ((1 : ℕ) : ℤ) < 99 * 1 ∧
    save_video true ⟨some 1, [⟨0, 0⟩], 0⟩ 99 0 1 1920 1080 false [] ⟨[]⟩ "d" "v" =
      (SaveOutcome.err (PyErr.valueError insufficientHistoryMsg),
        ⟨some 1, [⟨0, 0⟩], 0⟩, ⟨[]⟩) :=
  ⟨rfl, by decide, by decide, by decide,
    c7_amended_insufficient_history_no_side_effect ⟨some 1, [⟨0, 0⟩], 0⟩ 1 99 0 1 1920 1080
      false [] ⟨[]⟩ "d" "v" rfl (by decide) (by decide) (by decide)⟩

/-- C8 — counterexample.  A buffer of nonzero finite capacity 2 currently
holding one frame: `save_video(before_seconds=0, after_seconds=0, fps=30)`
does not return an artifact — the "before" slice starts at index
`capacity = 2` of the 1-element deque, so it is empty and the call raises
`IndexError` (leaving a leaked queue), even though the buffer is not
empty. -/
theorem c8_zero_seconds_on_nonempty_buffer_raises :
    save_video true ⟨some 2, [examplePacket 0], 0⟩ 0 0 30 1920 1080 false [] ⟨[]⟩
        "tmpdir" "vid" =
      (SaveOutcome.err PyErr.indexError, ⟨some 2, [examplePacket 0], 1⟩, ⟨[]⟩) := by
  decide

/-- C8 — amended claim.  On a buffer with finite capacity `m`,
`save_video` with `before_seconds = 0` (and any nonnegative
`after_seconds`) always raises an uncaught `IndexError`, whether or not the
buffer holds frames: the "before" slice `buffer[m - 0:]` is empty because
the deque never holds more than `m` elements, so `video_frames_before[-1]`
fails; the temporary queue registered just before remains leaked in the
registry.  No artifact is ever produced in this configuration. -/
theorem c8_amended_zero_before_seconds_always_index_error (fb : FrameBuffer) (m : ℕ)
    (after_seconds fps frame_width frame_height : ℤ)
    (return_bytes : Bool) (arrivals : List Packet) (fs : FS) (dir_path name : String)
    (hmax : fb.maxlen = some m) (hlen : fb.buffer.length ≤ m) (ha : 0 ≤ after_seconds) :
    save_video true fb 0 after_seconds fps frame_width frame_height
        return_bytes arrivals fs dir_path name =
      (SaveOutcome.err PyErr.indexError,
        { fb with temporary_queues := fb.temporary_queues + 1 }, fs) := by
  have h1 : ¬ ((0 : ℤ) < 0 ∨ after_seconds < 0) := by omega
  have h2 : ¬ ((after_seconds : ℤ) < 0) := by omega
  have h3 : ¬ ((m : ℤ) < 0) := by omega
  have h4 : get_slice fb.buffer (m : ℤ) none = .ok [] := by
    have ht : ((m : ℤ)).toNat = m := by omega
    simp [get_slice, h3, ht, List.drop_eq_nil_of_le hlen]
  simp [save_video, hmax, h1, h2, h3, h4]

/-- Witness for `c8_amended_zero_before_seconds_always_index_error` at
capacity 3 with a two-frame buffer. -/
theorem c8_amended_witness :
    (⟨some 3, [examplePacket 0, examplePacket 1], 0⟩ : FrameBuffer).maxlen = some 3 ∧
    [examplePacket 0, examplePacket 1].length ≤ 3 ∧ (0 : ℤ) ≤ 5 ∧
    save_video true ⟨some 3, [examplePacket 0, examplePacket 1], 0⟩ 0 5 30 640 480
        true [examplePacket 2] ⟨[]⟩ "d" "v" =
      (SaveOutcome.err PyErr.indexError,
        ⟨some 3, [examplePacket 0, examplePacket 1], 1⟩, ⟨[]⟩) :=
  ⟨rfl, by decide, by decide,
    c8_amended_zero_before_seconds_always_index_error
      ⟨some 3, [examplePacket 0, examplePacket 1], 0⟩ 3 5 30 640 480 true
      [examplePacket 2] ⟨[]⟩ "d" "v" rfl (by decide) (by decide)⟩

/-- C9 — counterexample.  A negative `start` is out of range for any buffer
contents, yet `get_slice` does not return an empty result:
`itertools.islice` rejects negative indices, so the call raises a
`ValueError`. -/
theorem c9_negative_start_raises_value_error :
    get_slice [examplePacket 0] (-1) none = .error (.valueError isliceMsg) ∧
    get_slice [examplePacket 0] (-1) none ≠ .ok [] := by
  refine ⟨rfl, by simp [get_slice]⟩

/-- C9 — amended claim.  For every buffer state, a nonnegative `start` that
is out of range (at or beyond the buffer length) yields an empty result
rather than an error; a negative `start`, however, raises a `ValueError`
from `itertools.islice`. -/
theorem c9_amended_out_of_range_start (buf : List Packet) (start : ℤ) :
    (0 ≤ start → buf.length ≤ start.toNat → get_slice buf start none = .ok []) ∧
    (start < 0 → get_slice buf start none = .error (.valueError isliceMsg)) := by
  constructor
  · intro h0 hlen
    have hs : ¬ (start < 0) := by omega
    simp [get_slice, hs, List.drop_eq_nil_of_le hlen]
  · intro hneg
    simp [get_slice, hneg]

/-- Witness for `c9_amended_out_of_range_start`: a one-element buffer with
`start = 5` (out of range) and `start = -3` (negative). -/
theorem c9_amended_witness :
    (0 ≤ (5 : ℤ) ∧ [examplePacket 0].length ≤ (5 : ℤ).toNat ∧
      get_slice [examplePacket 0] 5 none = .ok []) ∧
    ((-3 : ℤ) < 0 ∧
      get_slice [examplePacket 0] (-3) none = .error (.valueError isliceMsg)) :=
  ⟨⟨by decide, by decide,
      (c9_amended_out_of_range_start [examplePacket 0] 5).1 (by decide) (by decide)⟩,
    ⟨by decide, (c9_amended_out_of_range_start [examplePacket 0] (-3)).2 (by decide)⟩⟩

/-- Ingesting packets one by one into a buffer of finite capacity `C` keeps
exactly the suffix of all material seen, dropping everything beyond the
capacity from the old end. -/
theorem ingestAll_buffer_eq (C : ℕ) (ps : List Packet) :
    ∀ fb : FrameBuffer, fb.maxlen = some C → fb.buffer.length ≤ C →
    (ingestAll fb ps).buffer = (fb.buffer ++ ps).drop (fb.buffer.length + ps.length - C) := by
  induction ps with
  | nil =>
    intro fb hmax hlen
    have h : fb.buffer.length - C = 0 := by omega
    simp [ingestAll, h]
  | cons p rest ih =>
    intro fb hmax hlen
    have hstep : ingestAll fb (p :: rest) = ingestAll (default_callback fb p) rest := by
      simp [ingestAll]
    have hbuf' : (default_callback fb p).buffer
        = (fb.buffer ++ [p]).drop (fb.buffer.length + 1 - C) := by
      simp [default_callback, dequeAppend, hmax]
    have hlen' : (default_callback fb p).buffer.length ≤ C := by
      rw [hbuf']
      simp only [List.length_drop, List.length_append, List.length_cons, List.length_nil]
      omega
    have hmax' : (default_callback fb p).maxlen = some C := by
      simp [default_callback, hmax]
    rw [hstep, ih (default_callback fb p) hmax' hlen', hbuf']
    have hle : fb.buffer.length + 1 - C ≤ (fb.buffer ++ [p]).length := by
      simp only [List.length_append, List.length_cons, List.length_nil]
      omega
    rw [← List.drop_append_of_le_length hle, List.drop_drop]
    have hlist : fb.buffer ++ [p] ++ rest = fb.buffer ++ p :: rest := by simp
    rw [hlist]
    congr 1
    simp only [List.length_drop, List.length_append, List.length_cons, List.length_nil]
    omega

/-- C6 — confirmed.  Ingesting any sequence of `N` packets through
`default_callback` into a fresh `FrameBuffer` of finite capacity `C < N`
leaves the buffer holding exactly the most recent `C` packets in arrival
order (FIFO eviction of the oldest), and after every single ingestion —
i.e. for every prefix of the sequence — the buffer length is at most `C`. -/
theorem c6_finite_capacity_fifo_eviction (C : ℕ) (ps : List Packet)
    (h : C < ps.length) :
    (ingestAll ⟨some C, [], 0⟩ ps).buffer = ps.drop (ps.length - C) ∧
    (ps.drop (ps.length - C)).length = C ∧
    ∀ k : ℕ, ((ingestAll ⟨some C, [], 0⟩ (ps.take k)).buffer.length ≤ C) := by
  refine ⟨?_, ?_, ?_⟩
  · have hfull := ingestAll_buffer_eq C ps ⟨some C, [], 0⟩ rfl (by simp)
    simpa using hfull
  · simp only [List.length_drop]
    omega
  · intro k
    have hpre := ingestAll_buffer_eq C (ps.take k) ⟨some C, [], 0⟩ rfl (by simp)
    rw [hpre]
    simp only [List.nil_append, List.length_drop, List.length_nil, List.length_take]
    omega

/-- Witness for `c6_finite_capacity_fifo_eviction`: two packets into a
capacity-1 buffer leave only the second; the one-packet prefix also
respects the bound. -/
theorem c6_witness :
    1 < ([examplePacket 0, examplePacket 1] : List Packet).length ∧
    (ingestAll ⟨some 1, [], 0⟩ [examplePacket 0, examplePacket 1]).buffer =
      [examplePacket 0, examplePacket 1].drop
        (([examplePacket 0, examplePacket 1] : List Packet).length - 1) ∧
    (ingestAll ⟨some 1, [], 0⟩ ([examplePacket 0, examplePacket 1].take 1)).buffer.length ≤ 1 :=
  ⟨by decide,
    (c6_finite_capacity_fifo_eviction 1 [examplePacket 0, examplePacket 1] (by decide)).1,
    (c6_finite_capacity_fifo_eviction 1 [examplePacket 0, examplePacket 1] (by decide)).2.2 1⟩

/-- Whenever `save_video` called with `return_bytes = False` returns
normally, the returned value is the path string of the muxed file inside
the temporary directory (which is where `_mux_video` places it). -/
theorem save_video_not_return_bytes_gives_path (av_installed : Bool)
    (fb : FrameBuffer) (before_seconds after_seconds fps frame_width frame_height : ℤ)
    (arrivals : List Packet) (fs : FS) (dir_path name : String)
    (res : VideoRes) (muxed : List Packet)
    (hyp : (save_video av_installed fb before_seconds after_seconds fps frame_width
        frame_height false arrivals fs dir_path name).1 = SaveOutcome.ok res muxed) :
    res = VideoRes.path ⟨dir_path, name ++ ".mp4"⟩ := by
  unfold save_video at hyp
  split at hyp
  · simp at hyp
  · split at hyp
    · simp at hyp
    · split at hyp
      · simp at hyp
      · split at hyp
        · simp at hyp
        · split at hyp
          · simp at hyp
          · split at hyp
            · simp at hyp
            · split at hyp
              · simp at hyp
              · simp only [mux_video] at hyp
                exact (SaveOutcome.ok.injEq _ _ _ _).mp hyp.symm |>.1.symm ▸ rfl

/-- C10 — confirmed.  `process_video_event` always calls `save_video` with
`return_bytes = False`, so whenever it completes and hands a value to the
external `send_video_event`, that value is the path string of the muxed
file — never a byte buffer — regardless of the parameters supplied. -/
theorem c10_process_video_event_always_sends_path (av_installed : Bool)
    (fb : FrameBuffer) (before_seconds after_seconds : ℤ) (title : String)
    (fps frame_width frame_height : ℤ) (arrivals : List Packet)
    (fs : FS) (dir_path name : String) (v : VideoRes) (t : String)
    (hyp : (process_video_event av_installed fb before_seconds after_seconds title
        fps frame_width frame_height arrivals fs dir_path name).1 = some (v, t)) :
    v = VideoRes.path ⟨dir_path, name ++ ".mp4"⟩ := by
  simp only [process_video_event] at hyp
  split at hyp
  · next res muxed heq =>
      simp only [Option.some.injEq, Prod.mk.injEq] at hyp
      rw [← hyp.1]
      exact save_video_not_return_bytes_gives_path av_installed fb before_seconds
        after_seconds fps frame_width frame_height arrivals fs dir_path name res muxed heq
  · simp at hyp

section ConcreteWitness

attribute [local semireducible] Rat.sub

/-- Witness for `c10_process_video_event_always_sends_path`: a concrete
completing invocation whose sent value is the path of the muxed file. -/
theorem c10_witness :
    (process_video_event true ⟨some 1, [⟨0, 0⟩], 0⟩ 1 0 "title" 1 1 1
        [⟨3, 1⟩] ⟨[]⟩ "d" "vid").1 = some (VideoRes.path ⟨"d", "vid.mp4"⟩, "title") ∧
    VideoRes.path (⟨"d", "vid.mp4"⟩ : FPath) = VideoRes.path ⟨"d", "vid.mp4"⟩ :=
  ⟨by decide,
    c10_process_video_event_always_sends_path true ⟨some 1, [⟨0, 0⟩], 0⟩ 1 0 "title"
      1 1 1 [⟨3, 1⟩] ⟨[]⟩ "d" "vid" (VideoRes.path ⟨"d", "vid.mp4"⟩) "title" (by decide)⟩

end ConcreteWitness
